import Mathlib

/-!
# Verification of the Snowflake-Con connector core

A shallow embedding of the `snowflake_connector` package
(`connection.py`, `connection_manager.py`, `data_retriever.py`,
`__init__.py`) together with proofs of the specification's testable
properties.

Modelling conventions:
* a result row is a list of column values (strings suffice);
* a cursor is its delivered row sequence plus a time-indexed result
  description (`descAt t` is what `cursor.description` would show after
  `t` fetch calls, so a description that "changes mid-iteration" is
  representable);
* the vendor driver is an oracle record fixing the outcome of the
  liveness probe, of `snowflake.connector.connect`, and of
  `connection.close()`;
* Python truthiness of optional arguments (`if chunk_size:`,
  `if self.warehouse:`) is modelled explicitly;
* raising is an `Except` result; a function whose Python source
  swallows every exception is total.
-/

namespace SnowflakeCon

/-- A row as delivered by the cursor: an ordered tuple of column values. -/
abbrev Row := List String

/-- A cursor bound to one executed query: the rows it will deliver, in
delivery order, and its result description as it would be observed after
`t` fetch calls (`descAt 0` is the description before the first fetch). -/
structure Cursor where
  descAt : Nat → List String
  rows : List Row

/-- Python truthiness of an optional integer argument
(`if chunk_size:` — `None` and `0` are falsy). -/
def pyTruthyNat : Option Nat → Bool
  | none => false
  | some n => n != 0

/-- Python truthiness of an optional string field
(`if self.warehouse:` — `None` and `""` are falsy). -/
def pyTruthyStr : Option String → Bool
  | none => false
  | some s => s != ""

/-- The `while True: rows = cursor.fetchmany(k); if not rows: break`
loop common to `fetch_pandas` (chunked), `fetch_dict` (chunked),
`fetch_pandas_batches` and `fetch_dict_batches`: the list of non-empty
chunks pulled from the remaining rows.  `fetchmany 0` returns an empty
list, so the loop breaks at once when `k = 0`. -/
def fetchmanyLoop (k : Nat) : List Row → List (List Row)
  | [] => []
  | r :: rs =>
    if k = 0 then []
    else (r :: rs).take k :: fetchmanyLoop k (rs.drop (k - 1))
termination_by rows => rows.length
decreasing_by
  simp only [List.length_drop, List.length_cons]
  omega

/-- `dict(zip(column_names, row))`: pair each column name with the
corresponding value (`zip` truncates at the shorter list). -/
def zipDict (cols : List String) (r : Row) : List (String × String) :=
  cols.zip r

/-- A pandas DataFrame batch: its column labels and its rows. -/
structure PandasBatch where
  columns : List String
  rows : List Row
deriving DecidableEq, Repr

/-- `DataRetriever.fetch_pandas_batches`: capture `column_names` from
`cursor.description` once, before the first fetch, then yield one
DataFrame per non-empty `fetchmany(batch_size)` chunk, built with the
captured names.  The value is the full yielded sequence of the
generator. -/
def fetch_pandas_batches (cur : Cursor) (batch_size : Nat) : List PandasBatch :=
  let column_names := cur.descAt 0
  (fetchmanyLoop batch_size cur.rows).map fun chunk =>
    { columns := column_names, rows := chunk }

/-- `DataRetriever.fetch_dict_batches`: capture `column_names` once,
before the first fetch, then yield one list of row dictionaries per
non-empty `fetchmany(batch_size)` chunk. -/
def fetch_dict_batches (cur : Cursor) (batch_size : Nat) :
    List (List (List (String × String))) :=
  let column_names := cur.descAt 0
  (fetchmanyLoop batch_size cur.rows).map fun chunk =>
    chunk.map (zipDict column_names)

/-- `DataRetriever.fetch_pandas`: with a truthy `chunk_size`, pull
chunks and `pd.concat` them (`pd.concat` of an empty list raises
`ValueError: No objects to concatenate`); otherwise delegate to the
driver's optimized `fetch_pandas_all`.  The result is the row sequence
of the returned DataFrame, or the raised error. -/
def fetch_pandas (chunk_size : Option Nat) (cur : Cursor) : Except String (List Row) :=
  if pyTruthyNat chunk_size then
    let chunks := fetchmanyLoop (chunk_size.getD 0) cur.rows
    if chunks.isEmpty then
      Except.error "No objects to concatenate"
    else
      Except.ok chunks.flatten
  else
    Except.ok cur.rows

/-- `DataRetriever.fetch_dict`: capture `column_names` once; with a
truthy `chunk_size`, pull chunks and `extend` the accumulator with each
chunk's dictionaries; otherwise `fetchall` and convert in one pass. -/
def fetch_dict (chunk_size : Option Nat) (cur : Cursor) : List (List (String × String)) :=
  let column_names := cur.descAt 0
  if pyTruthyNat chunk_size then
    ((fetchmanyLoop (chunk_size.getD 0) cur.rows).map
      fun chunk => chunk.map (zipDict column_names)).flatten
  else
    cur.rows.map (zipDict column_names)

/-! ## Chunking lemmas -/

theorem fetchmanyLoop_nil (k : Nat) : fetchmanyLoop k [] = [] := by
  simp [fetchmanyLoop]

theorem fetchmanyLoop_cons (k : Nat) (hk : 0 < k) (r : Row) (rs : List Row) :
    fetchmanyLoop k (r :: rs) =
      (r :: rs).take k :: fetchmanyLoop k ((r :: rs).drop k) := by
  rw [fetchmanyLoop]
  have hk0 : k ≠ 0 := Nat.pos_iff_ne_zero.mp hk
  simp only [hk0, if_false]
  congr 1
  cases k with
  | zero => exact absurd rfl hk0
  | succ m => simp

/-- The chunks flatten back to the original rows: nothing lost, nothing
reordered. -/
theorem fetchmanyLoop_flatten (k : Nat) (hk : 0 < k) :
    ∀ rows : List Row, (fetchmanyLoop k rows).flatten = rows := by
  have H : ∀ n : Nat, ∀ rows : List Row, rows.length = n →
      (fetchmanyLoop k rows).flatten = rows := by
    intro n
    induction n using Nat.strong_induction_on with
    | _ n ih =>
      intro rows hn
      cases rows with
      | nil => simp [fetchmanyLoop_nil]
      | cons r rs =>
        rw [fetchmanyLoop_cons k hk r rs]
        have hlt : ((r :: rs).drop k).length < n := by
          subst hn
          simp only [List.length_drop, List.length_cons]
          omega
        rw [List.flatten_cons, ih _ hlt _ rfl, List.take_append_drop]
  exact fun rows => H rows.length rows rfl

/-- Number of chunks is `⌈N / k⌉`, written `(N + k - 1) / k`. -/
theorem fetchmanyLoop_length (k : Nat) (hk : 0 < k) :
    ∀ rows : List Row, (fetchmanyLoop k rows).length = (rows.length + k - 1) / k := by
  have H : ∀ n : Nat, ∀ rows : List Row, rows.length = n →
      (fetchmanyLoop k rows).length = (rows.length + k - 1) / k := by
    intro n
    induction n using Nat.strong_induction_on with
    | _ n ih =>
      intro rows hn
      cases rows with
      | nil =>
        simp only [fetchmanyLoop_nil, List.length_nil, Nat.zero_add]
        exact (Nat.div_eq_of_lt (by omega)).symm
      | cons r rs =>
        rw [fetchmanyLoop_cons k hk r rs]
        have hlt : ((r :: rs).drop k).length < n := by
          subst hn
          simp only [List.length_drop, List.length_cons]
          omega
        rw [List.length_cons, ih _ hlt _ rfl]
        simp only [List.length_drop, List.length_cons]
        rcases Nat.lt_or_ge (rs.length + 1) k with hlt2 | hge
        · have h1 : rs.length + 1 - k = 0 := by omega
          have h2 : rs.length + 1 + k - 1 = rs.length + k := by omega
          rw [h1, h2]
          have h3 : (0 + k - 1) / k = 0 := Nat.div_eq_of_lt (by omega)
          rw [h3, Nat.add_div_right _ hk]
          have h4 : rs.length / k = 0 := Nat.div_eq_of_lt (by omega)
          omega
        · have h2 : rs.length + 1 + k - 1 = (rs.length + 1 - k + (k - 1)) + k := by omega
          have h3 : rs.length + 1 - k + k - 1 = rs.length + 1 - k + (k - 1) := by omega
          rw [h2, h3, Nat.add_div_right _ hk]
  exact fun rows => H rows.length rows rfl

/-- Every chunk but the last has exactly `k` rows. -/
theorem fetchmanyLoop_dropLast (k : Nat) (hk : 0 < k) :
    ∀ rows : List Row, ∀ b ∈ (fetchmanyLoop k rows).dropLast, b.length = k := by
  have H : ∀ n : Nat, ∀ rows : List Row, rows.length = n →
      ∀ b ∈ (fetchmanyLoop k rows).dropLast, b.length = k := by
    intro n
    induction n using Nat.strong_induction_on with
    | _ n ih =>
      intro rows hn b hb
      cases rows with
      | nil => simp [fetchmanyLoop_nil] at hb
      | cons r rs =>
        rw [fetchmanyLoop_cons k hk r rs] at hb
        rcases hrest : fetchmanyLoop k ((r :: rs).drop k) with _ | ⟨c, cs⟩
        · rw [hrest] at hb
          simp at hb
        · rw [hrest, List.dropLast_cons₂] at hb
          rcases List.mem_cons.mp hb with hb1 | hb2
          · subst hb1
            have hklen : k < rs.length + 1 := by
              by_contra hcon
              have hdropnil : (r :: rs).drop k = [] := by
                apply List.drop_eq_nil_of_le
                simp only [List.length_cons]
                omega
              rw [hdropnil, fetchmanyLoop_nil] at hrest
              exact List.noConfusion hrest
            simp only [List.length_take, List.length_cons]
            omega
          · have hlt : ((r :: rs).drop k).length < n := by
              subst hn
              simp only [List.length_drop, List.length_cons]
              omega
            exact ih _ hlt _ rfl b (by rw [hrest]; exact hb2)
  exact fun rows => H rows.length rows rfl

/-- The last chunk (when any) has `N mod k` rows, or `k` when `k ∣ N`. -/
theorem fetchmanyLoop_getLast (k : Nat) (hk : 0 < k) :
    ∀ rows : List Row, ∀ b ∈ (fetchmanyLoop k rows).getLast?,
      b.length = if rows.length % k = 0 then k else rows.length % k := by
  have H : ∀ n : Nat, ∀ rows : List Row, rows.length = n →
      ∀ b ∈ (fetchmanyLoop k rows).getLast?,
        b.length = if rows.length % k = 0 then k else rows.length % k := by
    intro n
    induction n using Nat.strong_induction_on with
    | _ n ih =>
      intro rows hn b hb
      cases rows with
      | nil => simp [fetchmanyLoop_nil] at hb
      | cons r rs =>
        rw [fetchmanyLoop_cons k hk r rs] at hb
        rcases hrest : fetchmanyLoop k ((r :: rs).drop k) with _ | ⟨c, cs⟩
        · rw [hrest] at hb
          simp only [List.getLast?_singleton, Option.mem_some_iff] at hb
          subst hb
          have hle : rs.length + 1 ≤ k := by
            by_contra hcon
            have hne : (r :: rs).drop k ≠ [] := by
              apply List.ne_nil_of_length_pos
              simp only [List.length_drop, List.length_cons]
              omega
            rcases List.exists_cons_of_ne_nil hne with ⟨x, xs, hx⟩
            rw [hx, fetchmanyLoop_cons k hk x xs] at hrest
            exact List.noConfusion hrest
          simp only [List.length_take, List.length_cons]
          rcases Nat.lt_or_ge (rs.length + 1) k with hc | hc
          · rw [if_neg, Nat.mod_eq_of_lt (by omega)]
            · omega
            · rw [Nat.mod_eq_of_lt (by omega)]
              omega
          · have heq : rs.length + 1 = k := by omega
            rw [heq, Nat.mod_self, if_pos rfl]
            omega
        · rw [hrest, List.getLast?_cons_cons] at hb
          have hklen : k < rs.length + 1 := by
            by_contra hcon
            have hdropnil : (r :: rs).drop k = [] := by
              apply List.drop_eq_nil_of_le
              simp only [List.length_cons]
              omega
            rw [hdropnil, fetchmanyLoop_nil] at hrest
            exact List.noConfusion hrest
          have hlt : ((r :: rs).drop k).length < n := by
            subst hn
            simp only [List.length_drop, List.length_cons]
            omega
          have hrec := ih _ hlt _ rfl b (by rw [hrest]; exact hb)
          simp only [List.length_drop, List.length_cons] at hrec
          simp only [List.length_cons]
          rw [Nat.mod_eq_sub_mod (by omega : rs.length + 1 ≥ k)]
          exact hrec
  exact fun rows => H rows.length rows rfl

/-- Chunk sizes add up to the number of delivered rows. -/
theorem fetchmanyLoop_sum (k : Nat) (hk : 0 < k) (rows : List Row) :
    ((fetchmanyLoop k rows).map List.length).sum = rows.length := by
  rw [← List.length_flatten, fetchmanyLoop_flatten k hk]

/-! ## C1, C2, C7: retrieval shape -/

/-- C1: over a cursor delivering `N` rows and a positive `batch_size` `k`,
both lazy batch methods yield exactly `⌈N/k⌉` batches, every batch but
the last has `k` rows, the last has `N mod k` rows (or `k` when `k ∣ N`),
the batches concatenate back to the delivered rows in delivery order, and
the row counts sum to `N`. -/
theorem C1_batch_partition (cur : Cursor) (k : Nat) (hk : 0 < k) :
    (fetch_pandas_batches cur k).length = (cur.rows.length + k - 1) / k ∧
    (fetch_dict_batches cur k).length = (cur.rows.length + k - 1) / k ∧
    ((fetch_pandas_batches cur k).map PandasBatch.rows).flatten = cur.rows ∧
    (∀ b ∈ (fetch_pandas_batches cur k).dropLast, b.rows.length = k) ∧
    (∀ b ∈ (fetch_pandas_batches cur k).getLast?,
        b.rows.length = if cur.rows.length % k = 0 then k else cur.rows.length % k) ∧
    (∀ b ∈ (fetch_dict_batches cur k).dropLast, b.length = k) ∧
    (∀ b ∈ (fetch_dict_batches cur k).getLast?,
        b.length = if cur.rows.length % k = 0 then k else cur.rows.length % k) ∧
    ((fetch_pandas_batches cur k).map (fun b => b.rows.length)).sum = cur.rows.length ∧
    ((fetch_dict_batches cur k).map List.length).sum = cur.rows.length := by
  refine ⟨?_, ?_, ?_, ?_, ?_, ?_, ?_, ?_, ?_⟩
  · simp [fetch_pandas_batches, fetchmanyLoop_length k hk]
  · simp [fetch_dict_batches, fetchmanyLoop_length k hk]
  · simp only [fetch_pandas_batches, List.map_map, Function.comp]
    rw [show ((fun b => PandasBatch.rows b) ∘ fun chunk =>
          PandasBatch.mk (cur.descAt 0) chunk) = id by rfl]
    rw [List.map_id, fetchmanyLoop_flatten k hk]
  · intro b hb
    rw [fetch_pandas_batches, ← List.map_dropLast] at hb
    rcases List.mem_map.mp hb with ⟨c, hc, rfl⟩
    exact fetchmanyLoop_dropLast k hk cur.rows c hc
  · intro b hb
    rw [fetch_pandas_batches, List.getLast?_map] at hb
    rcases hlast : (fetchmanyLoop k cur.rows).getLast? with _ | c
    · rw [hlast] at hb
      exact absurd hb (Option.not_mem_none b)
    · rw [hlast] at hb
      simp only [Option.map_some', Option.mem_some] at hb
      subst hb
      exact fetchmanyLoop_getLast k hk cur.rows c (by rw [hlast]; rfl)
  · intro b hb
    rw [fetch_dict_batches, ← List.map_dropLast] at hb
    rcases List.mem_map.mp hb with ⟨c, hc, rfl⟩
    rw [List.length_map]
    exact fetchmanyLoop_dropLast k hk cur.rows c hc
  · intro b hb
    rw [fetch_dict_batches, List.getLast?_map] at hb
    rcases hlast : (fetchmanyLoop k cur.rows).getLast? with _ | c
    · rw [hlast] at hb
      exact absurd hb (Option.not_mem_none b)
    · rw [hlast] at hb
      simp only [Option.map_some', Option.mem_some] at hb
      subst hb
      rw [List.length_map]
      exact fetchmanyLoop_getLast k hk cur.rows c (by rw [hlast]; rfl)
  · simp only [fetch_pandas_batches, List.map_map, Function.comp]
    exact fetchmanyLoop_sum k hk cur.rows
  · simp only [fetch_dict_batches, List.map_map]
    have hcomp : (List.length ∘ fun chunk : List Row =>
        List.map (zipDict (cur.descAt 0)) chunk) = List.length := by
      funext c
      simp [Function.comp]
    rw [hcomp]
    exact fetchmanyLoop_sum k hk cur.rows

/-- Witness for C1 at a concrete cursor: 5 rows, `batch_size = 2` gives
3 batches that flatten back to the delivered rows. -/
theorem C1_batch_partition_witness :
    (fetch_pandas_batches ⟨fun _ => ["A"], [["r1"], ["r2"], ["r3"], ["r4"], ["r5"]]⟩ 2).length
        = 3 ∧
    ((fetch_pandas_batches ⟨fun _ => ["A"], [["r1"], ["r2"], ["r3"], ["r4"], ["r5"]]⟩ 2).map
        PandasBatch.rows).flatten = [["r1"], ["r2"], ["r3"], ["r4"], ["r5"]] := by
  have h := C1_batch_partition ⟨fun _ => ["A"], [["r1"], ["r2"], ["r3"], ["r4"], ["r5"]]⟩ 2
    (by decide)
  exact ⟨h.1, h.2.2.1⟩

/-- C2 exhibit: over a cursor delivering zero rows, the chunked
`fetch_pandas` raises `pd.concat`'s "No objects to concatenate" error
instead of returning a 0-row result, while the chunked `fetch_dict`
returns the empty row list as the claim demands. -/
theorem C2_fetch_pandas_zero_rows_raises :
    fetch_pandas (some 1) ⟨fun _ => ["A"], []⟩ = Except.error "No objects to concatenate" ∧
    fetch_dict (some 1) ⟨fun _ => ["A"], []⟩ = [] := by
  constructor
  · simp [fetch_pandas, pyTruthyNat, fetchmanyLoop_nil]
  · simp [fetch_dict, pyTruthyNat, fetchmanyLoop_nil]

/-- C7: both lazy batch methods label every batch with the description
captured before the first fetch, and their whole output is unchanged if
the cursor's description at every later time is replaced by the initial
one — a mid-iteration description change cannot affect any batch. -/
theorem C7_description_captured_once (cur : Cursor) (k : Nat) :
    (∀ b ∈ fetch_pandas_batches cur k, b.columns = cur.descAt 0) ∧
    (∀ b ∈ fetch_dict_batches cur k, ∀ rd ∈ b, ∃ r, rd = zipDict (cur.descAt 0) r) ∧
    fetch_pandas_batches cur k = fetch_pandas_batches ⟨fun _ => cur.descAt 0, cur.rows⟩ k ∧
    fetch_dict_batches cur k = fetch_dict_batches ⟨fun _ => cur.descAt 0, cur.rows⟩ k := by
  refine ⟨?_, ?_, rfl, rfl⟩
  · intro b hb
    rcases List.mem_map.mp hb with ⟨c, _, rfl⟩
    rfl
  · intro b hb rd hrd
    rcases List.mem_map.mp hb with ⟨c, _, rfl⟩
    rcases List.mem_map.mp hrd with ⟨r, _, rfl⟩
    exact ⟨r, rfl⟩

/-! ## C3: generator lifecycle and guaranteed cursor release

Both lazy batch methods have the shape
`cursor = execute_query(...); try: ...yield...; finally: cursor.close()`.
A Python generator runs the `finally` block when the loop breaks on an
empty chunk (natural exhaustion) and also when `GeneratorExit` is thrown
at a suspension point by `generator.close()` / garbage collection
(early abandonment).  The state machine below embeds exactly that. -/

/-- Run-time state of one lazy batch generator invocation: the rows the
cursor still holds, whether the cursor is open, how many times
`cursor.close()` has run, and whether the generator frame has already
executed its `finally` block. -/
structure GenState where
  remaining : List Row
  cursorOpen : Bool
  closeCalls : Nat
  finished : Bool
deriving DecidableEq, Repr

/-- Starting state: `execute_query` has just returned a fresh open cursor. -/
def genInit (rows : List Row) : GenState :=
  { remaining := rows, cursorOpen := true, closeCalls := 0, finished := false }

/-- `cursor.close()`. -/
def closeCursor (s : GenState) : GenState :=
  { s with cursorOpen := false, closeCalls := s.closeCalls + 1 }

/-- One `next()` on the generator: run to the next `yield` (one
`fetchmany` call), or — on an empty chunk — `break`, run the `finally`
block (closing the cursor), and finish.  A finished generator just
signals exhaustion again. -/
def genNext (k : Nat) (s : GenState) : Option (List Row) × GenState :=
  if s.finished then (none, s)
  else
    let chunk := s.remaining.take k
    if chunk.isEmpty then
      (none, { closeCursor s with finished := true })
    else
      (some chunk, { s with remaining := s.remaining.drop k })

/-- `generator.close()`, as run on early abandonment (explicit close or
garbage collection): `GeneratorExit` is thrown at the suspension point,
so the `finally` block runs unless it already has. -/
def genClose (s : GenState) : GenState :=
  if s.finished then s else { closeCursor s with finished := true }

/-- A consumer pulling up to `n` batches, stopping at exhaustion. -/
def drive (k : Nat) : Nat → GenState → List (List Row) × GenState
  | 0, s => ([], s)
  | n + 1, s =>
    match genNext k s with
    | (none, s1) => ([], s1)
    | (some b, s1) =>
      let rest := drive k n s1
      (b :: rest.1, rest.2)

theorem drive_succ_some (k n : Nat) (s s1 : GenState) (b : List Row)
    (h : genNext k s = (some b, s1)) :
    drive k (n + 1) s = (b :: (drive k n s1).1, (drive k n s1).2) := by
  simp [drive, h]

theorem drive_succ_none (k n : Nat) (s s1 : GenState)
    (h : genNext k s = (none, s1)) :
    drive k (n + 1) s = ([], s1) := by
  simp [drive, h]

theorem genNext_init_cons (k : Nat) (hk : 0 < k) (r : Row) (rs : List Row) :
    genNext k (genInit (r :: rs)) =
      (some ((r :: rs).take k), genInit ((r :: rs).drop k)) := by
  cases k with
  | zero => exact absurd hk (Nat.lt_irrefl 0)
  | succ m => simp [genNext, genInit]

theorem genNext_init_nil (k : Nat) :
    genNext k (genInit []) =
      (none, { remaining := [], cursorOpen := false, closeCalls := 1, finished := true }) := by
  simp [genNext, genInit, closeCursor]

/-- Driving `j` batches out of a fresh generator, for `j` at most the
number of available batches: the first `j` chunks come out, the
generator is suspended with an open, never-closed cursor. -/
theorem drive_within (k : Nat) (hk : 0 < k) :
    ∀ (j : Nat) (rows : List Row), j ≤ (fetchmanyLoop k rows).length →
      drive k j (genInit rows) =
        ((fetchmanyLoop k rows).take j, genInit (rows.drop (j * k))) := by
  intro j
  induction j with
  | zero =>
    intro rows _
    simp [drive, genInit]
  | succ j ih =>
    intro rows hj
    cases rows with
    | nil =>
      rw [fetchmanyLoop_nil] at hj
      exact absurd hj (by simp)
    | cons r rs =>
      have hlen : (fetchmanyLoop k (r :: rs)).length
          = (fetchmanyLoop k ((r :: rs).drop k)).length + 1 := by
        rw [fetchmanyLoop_cons k hk]
        simp
      rw [drive_succ_some k j _ _ _ (genNext_init_cons k hk r rs), ih _ (by omega)]
      rw [fetchmanyLoop_cons k hk, List.take_succ_cons, List.drop_drop, Nat.succ_mul,
        Nat.add_comm k (j * k)]

/-- Driving a fresh generator one step past its last batch: every chunk
is yielded, the `finally` block has closed the cursor exactly once. -/
theorem drive_exhaust (k : Nat) (hk : 0 < k) :
    ∀ rows : List Row,
      drive k ((fetchmanyLoop k rows).length + 1) (genInit rows) =
        (fetchmanyLoop k rows,
         { remaining := [], cursorOpen := false, closeCalls := 1, finished := true }) := by
  have H : ∀ n : Nat, ∀ rows : List Row, rows.length = n →
      drive k ((fetchmanyLoop k rows).length + 1) (genInit rows) =
        (fetchmanyLoop k rows,
         { remaining := [], cursorOpen := false, closeCalls := 1, finished := true }) := by
    intro n
    induction n using Nat.strong_induction_on with
    | _ n ih =>
      intro rows hn
      cases rows with
      | nil =>
        rw [fetchmanyLoop_nil]
        simp only [List.length_nil, Nat.zero_add, drive, genNext_init_nil k]
      | cons r rs =>
        have hlt : ((r :: rs).drop k).length < n := by
          subst hn
          simp only [List.length_drop, List.length_cons]
          omega
        have hlen : (fetchmanyLoop k (r :: rs)).length
            = (fetchmanyLoop k ((r :: rs).drop k)).length + 1 := by
          rw [fetchmanyLoop_cons k hk]
          simp
        rw [hlen, drive_succ_some k _ _ _ _ (genNext_init_cons k hk r rs),
          ih _ hlt _ rfl, fetchmanyLoop_cons k hk]
  exact fun rows => H rows.length rows rfl

/-- The rows are exhausted after as many `fetchmany(k)` pulls as there
are chunks. -/
theorem fetchmanyLoop_drop_all (k : Nat) (hk : 0 < k) :
    ∀ rows : List Row, rows.drop ((fetchmanyLoop k rows).length * k) = [] := by
  have H : ∀ n : Nat, ∀ rows : List Row, rows.length = n →
      rows.drop ((fetchmanyLoop k rows).length * k) = [] := by
    intro n
    induction n using Nat.strong_induction_on with
    | _ n ih =>
      intro rows hn
      cases rows with
      | nil => simp
      | cons r rs =>
        have hlt : ((r :: rs).drop k).length < n := by
          subst hn
          simp only [List.length_drop, List.length_cons]
          omega
        have hlen : (fetchmanyLoop k (r :: rs)).length
            = (fetchmanyLoop k ((r :: rs).drop k)).length + 1 := by
          rw [fetchmanyLoop_cons k hk]
          simp
        rw [hlen, Nat.succ_mul, Nat.add_comm, ← List.drop_drop]
        exact ih _ hlt _ rfl
  exact fun rows => H rows.length rows rfl

/-- C3: for every lazy batch invocation, the cursor stays open (and is
never closed) while the consumer is still within the available batches;
abandoning iteration at any such point runs the generator's exit step
and closes the cursor exactly once; driving to natural exhaustion
yields every batch, closes the cursor exactly once, and a later
generator close is a no-op (no double close, no leaked cursor). -/
theorem C3_cursor_released_exactly_once (cur : Cursor) (k : Nat) (hk : 0 < k)
    (j : Nat) (hj : j ≤ (fetchmanyLoop k cur.rows).length) :
    ((drive k j (genInit cur.rows)).2.cursorOpen = true ∧
     (drive k j (genInit cur.rows)).2.closeCalls = 0) ∧
    ((genClose (drive k j (genInit cur.rows)).2).closeCalls = 1 ∧
     (genClose (drive k j (genInit cur.rows)).2).cursorOpen = false) ∧
    ((drive k ((fetchmanyLoop k cur.rows).length + 1) (genInit cur.rows)).1
        = fetchmanyLoop k cur.rows ∧
     (drive k ((fetchmanyLoop k cur.rows).length + 1) (genInit cur.rows)).2.closeCalls = 1 ∧
     (drive k ((fetchmanyLoop k cur.rows).length + 1) (genInit cur.rows)).2.cursorOpen = false ∧
     genClose (drive k ((fetchmanyLoop k cur.rows).length + 1) (genInit cur.rows)).2
        = (drive k ((fetchmanyLoop k cur.rows).length + 1) (genInit cur.rows)).2) := by
  rw [drive_within k hk j cur.rows hj, drive_exhaust k hk cur.rows]
  refine ⟨⟨rfl, rfl⟩, ⟨?_, ?_⟩, rfl, rfl, rfl, ?_⟩
  · simp [genClose, genInit, closeCursor]
  · simp [genClose, genInit, closeCursor]
  · simp [genClose]

/-- Witness for C3 at a concrete cursor (one row, `batch_size = 2`,
abandonment before the first batch). -/
theorem C3_cursor_released_exactly_once_witness :
    (genClose (drive 2 0 (genInit [["x"]])).2).closeCalls = 1 ∧
    (drive 2 0 (genInit [["x"]])).2.cursorOpen = true := by
  have h := C3_cursor_released_exactly_once ⟨fun _ => ["A"], [["x"]]⟩ 2 (by decide)
    0 (Nat.zero_le _)
  exact ⟨h.2.1.1, h.1.1⟩

/-! ## Session model (`connection.py`) -/

/-- The parameters stored by `SnowflakeConnection.__init__`. -/
structure ConnParams where
  account : String
  user : String
  password : String
  warehouse : Option String
  database : Option String
  schema : Option String
  role : Option String
  authenticator : String
  extra_params : List (String × String)
deriving DecidableEq, Repr

/-- The state of a `SnowflakeConnection`: its stored parameters, the
cached driver handle (a handle is a number), and the connected flag. -/
structure SnowflakeConnection where
  params : ConnParams
  _connection : Option Nat
  _is_connected : Bool
deriving DecidableEq, Repr

/-- Driver oracle fixing the outcome of the `SELECT 1` liveness probe
on the cached handle, of `snowflake.connector.connect`, and of
`connection.close()`. -/
structure Driver where
  probeOk : Bool
  openResult : Except String Nat
  closeResult : Except String Unit
deriving Repr

/-- A Python dict built by a sequence of key assignments, looked up:
the value of the last assignment to `key`, if any. -/
def dictGet : List (String × String) → String → Option String
  | [], _ => none
  | kv :: rest, key =>
    match dictGet rest key with
    | some v => some v
    | none => if kv.1 == key then some kv.2 else none

/-- The `connection_params` dict built inside
`SnowflakeConnection.connect`: account/user/password/authenticator
merged with `extra_params`, then each optional field assigned only when
truthy (`if self.warehouse:` and friends). -/
def connection_params (p : ConnParams) : List (String × String) :=
  let d0 := [("account", p.account), ("user", p.user), ("password", p.password),
             ("authenticator", p.authenticator)] ++ p.extra_params
  let d1 := if pyTruthyStr p.warehouse then d0 ++ [("warehouse", p.warehouse.getD "")] else d0
  let d2 := if pyTruthyStr p.database then d1 ++ [("database", p.database.getD "")] else d1
  let d3 := if pyTruthyStr p.schema then d2 ++ [("schema", p.schema.getD "")] else d2
  if pyTruthyStr p.role then d3 ++ [("role", p.role.getD "")] else d3

/-- The observable outcome of one `SnowflakeConnection.connect()` call:
the returned handle or raised error, the session state afterwards, the
parameter dict of every `snowflake.connector.connect` call made, and
the log messages emitted, in order. -/
structure ConnectResult where
  result : Except String Nat
  state : SnowflakeConnection
  openArgs : List (List (String × String))
  logs : List String
deriving Repr

/-- The `try: ... snowflake.connector.connect(**connection_params) ...`
half of `connect`, entered with session state `s` and the log messages
`logs0` already emitted. -/
def openPhase (s : SnowflakeConnection) (d : Driver) (logs0 : List String) : ConnectResult :=
  let logs1 := logs0 ++
    ["Connecting to Snowflake account: " ++ s.params.account
      ++ " as user: " ++ s.params.user]
  let ps := connection_params s.params
  match d.openResult with
  | Except.ok h =>
    { result := Except.ok h
      state := { s with _connection := some h, _is_connected := true }
      openArgs := [ps]
      logs := logs1 ++ ["Successfully connected to Snowflake"] }
  | Except.error e =>
    { result := Except.error e
      state := { s with _connection := none, _is_connected := false }
      openArgs := [ps]
      logs := logs1 ++ ["Failed to connect to Snowflake: " ++ e] }

/-- `SnowflakeConnection.connect()`: with a connected cached handle,
probe it with `SELECT 1`; on probe success return the handle unchanged;
on probe failure log a warning, drop the dead handle, and fall through
to a single fresh driver open with the stored parameters. -/
def connect (s : SnowflakeConnection) (d : Driver) : ConnectResult :=
  match s._is_connected, s._connection with
  | true, some h =>
    if d.probeOk then
      { result := Except.ok h, state := s, openArgs := [], logs := [] }
    else
      openPhase { s with _is_connected := false, _connection := none } d
        ["Cached connection is dead, reconnecting..."]
  | _, _ => openPhase s d []

/-- `SnowflakeConnection.disconnect()`: close the handle if present,
catching any close-time error (logged, not raised), and always clear
handle and flag in the `finally`.  Totality of this function — its
result type has no error component — is the embedding of "never
raises". -/
def disconnect (s : SnowflakeConnection) (d : Driver) : SnowflakeConnection × List String :=
  match s._connection with
  | none => (s, [])
  | some _ =>
    match d.closeResult with
    | Except.ok _ =>
      ({ s with _connection := none, _is_connected := false },
       ["Disconnected from Snowflake"])
    | Except.error e =>
      ({ s with _connection := none, _is_connected := false },
       ["Error during disconnect: " ++ e])

/-- `SnowflakeConnection.__init__`: store parameters, no handle, flag
down. -/
def initConnection (p : ConnParams) : SnowflakeConnection :=
  { params := p, _connection := none, _is_connected := false }

/-- Replace only the stored secret of a session. -/
def setPassword (s : SnowflakeConnection) (pw : String) : SnowflakeConnection :=
  { s with params := { s.params with password := pw } }

/-- The Session handle/flag invariant: the connected flag is set only
when a handle is present. -/
def connInv (s : SnowflakeConnection) : Prop :=
  s._is_connected = true → s._connection ≠ none

/-! ## Facade model (`connection_manager.py`, `__init__.py`) -/

/-- `ConnectionManager`: holds at most one `SnowflakeConnection` (the
`DataRetriever` it also holds only wraps that connection and carries no
state of its own). -/
structure ConnectionManager where
  _connection : Option SnowflakeConnection

/-- `ConnectionManager.is_connected`:
`self._connection is not None and self._connection._is_connected`. -/
def is_connected (m : ConnectionManager) : Bool :=
  match m._connection with
  | none => false
  | some c => c._is_connected

/-- The error raised by both `_ensure_connected` helpers:
`ConnectionError("Not connected to Snowflake. Please call connect() first.")`
— the spec's `NotConnectedError`. -/
inductive PyError where
  | NotConnectedError
deriving DecidableEq, Repr

/-- The module-level `_connection_manager` global (`None` until a
`connect()` succeeds). -/
abbrev ModuleState := Option ConnectionManager

/-- Module state at import time: `_connection_manager = None`. -/
def initialModuleState : ModuleState := none

/-- Module-level `_ensure_connected`: raise unless the global manager
exists and reports connected. -/
def module_ensure_connected (st : ModuleState) : Except PyError ConnectionManager :=
  match st with
  | none => Except.error PyError.NotConnectedError
  | some m =>
    if is_connected m then Except.ok m else Except.error PyError.NotConnectedError

/-- `ConnectionManager._ensure_connected`. -/
def manager_ensure_connected (m : ConnectionManager) : Except PyError Unit :=
  if is_connected m then Except.ok () else Except.error PyError.NotConnectedError

/-- Module-level `disconnect()`: tear down the manager (if any) and
clear the global. -/
def module_disconnect (st : ModuleState) : ModuleState :=
  match st with
  | none => none
  | some _ => none

/-- `DataRetriever.fetch_one`: the first row, or the `None` sentinel. -/
def fetch_one (cur : Cursor) : Option Row :=
  cur.rows.head?

/-- `DataRetriever.fetch_all`: every row, in delivery order. -/
def fetch_all (cur : Cursor) : List Row :=
  cur.rows

/-- Module-level `query`: module `_ensure_connected`, then
`ConnectionManager.query`, which checks again and runs `fetch_pandas`
over the cursor the query produces. -/
def module_query (st : ModuleState) (cur : Cursor) (chunk_size : Option Nat) :
    Except PyError (Except String (List Row)) :=
  (module_ensure_connected st).bind fun m =>
    (manager_ensure_connected m).map fun _ => fetch_pandas chunk_size cur

/-- Module-level `query_batches`. -/
def module_query_batches (st : ModuleState) (cur : Cursor) (batch_size : Nat) :
    Except PyError (List PandasBatch) :=
  (module_ensure_connected st).bind fun m =>
    (manager_ensure_connected m).map fun _ => fetch_pandas_batches cur batch_size

/-- Module-level `query_dict`. -/
def module_query_dict (st : ModuleState) (cur : Cursor) (chunk_size : Option Nat) :
    Except PyError (List (List (String × String))) :=
  (module_ensure_connected st).bind fun m =>
    (manager_ensure_connected m).map fun _ => fetch_dict chunk_size cur

/-- Module-level `query_dict_batches`. -/
def module_query_dict_batches (st : ModuleState) (cur : Cursor) (batch_size : Nat) :
    Except PyError (List (List (List (String × String)))) :=
  (module_ensure_connected st).bind fun m =>
    (manager_ensure_connected m).map fun _ => fetch_dict_batches cur batch_size

/-- Module-level `execute`: returns the open cursor. -/
def module_execute (st : ModuleState) (cur : Cursor) : Except PyError Cursor :=
  (module_ensure_connected st).bind fun m =>
    (manager_ensure_connected m).map fun _ => cur

/-- Module-level `fetch_one`. -/
def module_fetch_one (st : ModuleState) (cur : Cursor) : Except PyError (Option Row) :=
  (module_ensure_connected st).bind fun m =>
    (manager_ensure_connected m).map fun _ => fetch_one cur

/-- Module-level `fetch_all`. -/
def module_fetch_all (st : ModuleState) (cur : Cursor) : Except PyError (List Row) :=
  (module_ensure_connected st).bind fun m =>
    (manager_ensure_connected m).map fun _ => fetch_all cur

/-! ## Dict lookup lemmas -/

theorem dictGet_append (d1 d2 : List (String × String)) (key : String) :
    dictGet (d1 ++ d2) key =
      match dictGet d2 key with
      | some v => some v
      | none => dictGet d1 key := by
  induction d1 with
  | nil =>
    simp only [List.nil_append]
    cases dictGet d2 key <;> rfl
  | cons kv d1 ih =>
    have hstep : dictGet ((kv :: d1) ++ d2) key =
        match dictGet (d1 ++ d2) key with
        | some v => some v
        | none => if kv.1 == key then some kv.2 else none := rfl
    have hcons : dictGet (kv :: d1) key =
        match dictGet d1 key with
        | some v => some v
        | none => if kv.1 == key then some kv.2 else none := rfl
    rw [hstep, ih, hcons]
    cases dictGet d2 key <;> cases dictGet d1 key <;> rfl

theorem dictGet_append_same (d : List (String × String)) (k v : String) :
    dictGet (d ++ [(k, v)]) k = some v := by
  rw [dictGet_append]
  simp [dictGet]

theorem dictGet_append_other (d : List (String × String)) (k v key : String)
    (h : k ≠ key) : dictGet (d ++ [(k, v)]) key = dictGet d key := by
  rw [dictGet_append]
  simp [dictGet, h]

theorem dictGet_not_mem (d : List (String × String)) (key : String)
    (h : ∀ kv ∈ d, kv.1 ≠ key) : dictGet d key = none := by
  induction d with
  | nil => rfl
  | cons kv rest ih =>
    have hk : kv.1 ≠ key := h kv (List.mem_cons_self kv rest)
    have hr : dictGet rest key = none := ih fun x hx => h x (List.mem_cons_of_mem kv hx)
    simp [dictGet, hr, hk]

/-- None of the four always-present keys, nor any `extra_params` key
distinct from `key`, resolves a lookup of `key`. -/
theorem dictGet_base_none (p : ConnParams) (key : String)
    (h1 : key ≠ "account") (h2 : key ≠ "user") (h3 : key ≠ "password")
    (h4 : key ≠ "authenticator")
    (hx : ∀ kv ∈ p.extra_params, kv.1 ≠ key) :
    dictGet ([("account", p.account), ("user", p.user), ("password", p.password),
      ("authenticator", p.authenticator)] ++ p.extra_params) key = none := by
  rw [dictGet_append, dictGet_not_mem p.extra_params key hx]
  simp [dictGet, Ne.symm h1, Ne.symm h2, Ne.symm h3, Ne.symm h4]

theorem dictGet_strip_db_wh (d : List (String × String)) (v : String) :
    dictGet (d ++ [("database", v)]) "warehouse" = dictGet d "warehouse" :=
  dictGet_append_other d _ v _ (by decide)

theorem dictGet_strip_sc_wh (d : List (String × String)) (v : String) :
    dictGet (d ++ [("schema", v)]) "warehouse" = dictGet d "warehouse" :=
  dictGet_append_other d _ v _ (by decide)

theorem dictGet_strip_ro_wh (d : List (String × String)) (v : String) :
    dictGet (d ++ [("role", v)]) "warehouse" = dictGet d "warehouse" :=
  dictGet_append_other d _ v _ (by decide)

theorem dictGet_strip_wh_db (d : List (String × String)) (v : String) :
    dictGet (d ++ [("warehouse", v)]) "database" = dictGet d "database" :=
  dictGet_append_other d _ v _ (by decide)

theorem dictGet_strip_sc_db (d : List (String × String)) (v : String) :
    dictGet (d ++ [("schema", v)]) "database" = dictGet d "database" :=
  dictGet_append_other d _ v _ (by decide)

theorem dictGet_strip_ro_db (d : List (String × String)) (v : String) :
    dictGet (d ++ [("role", v)]) "database" = dictGet d "database" :=
  dictGet_append_other d _ v _ (by decide)

theorem dictGet_strip_wh_sc (d : List (String × String)) (v : String) :
    dictGet (d ++ [("warehouse", v)]) "schema" = dictGet d "schema" :=
  dictGet_append_other d _ v _ (by decide)

theorem dictGet_strip_db_sc (d : List (String × String)) (v : String) :
    dictGet (d ++ [("database", v)]) "schema" = dictGet d "schema" :=
  dictGet_append_other d _ v _ (by decide)

theorem dictGet_strip_ro_sc (d : List (String × String)) (v : String) :
    dictGet (d ++ [("role", v)]) "schema" = dictGet d "schema" :=
  dictGet_append_other d _ v _ (by decide)

theorem dictGet_strip_wh_ro (d : List (String × String)) (v : String) :
    dictGet (d ++ [("warehouse", v)]) "role" = dictGet d "role" :=
  dictGet_append_other d _ v _ (by decide)

theorem dictGet_strip_db_ro (d : List (String × String)) (v : String) :
    dictGet (d ++ [("database", v)]) "role" = dictGet d "role" :=
  dictGet_append_other d _ v _ (by decide)

theorem dictGet_strip_sc_ro (d : List (String × String)) (v : String) :
    dictGet (d ++ [("schema", v)]) "role" = dictGet d "role" :=
  dictGet_append_other d _ v _ (by decide)

/-- What the built parameter dict holds under `"warehouse"`. -/
theorem connection_params_warehouse (p : ConnParams)
    (hx : ∀ kv ∈ p.extra_params, kv.1 ≠ "warehouse") :
    dictGet (connection_params p) "warehouse"
      = if pyTruthyStr p.warehouse = true then p.warehouse else none := by
  have hbase := dictGet_base_none p "warehouse"
    (by decide) (by decide) (by decide) (by decide) hx
  unfold connection_params
  cases hW : pyTruthyStr p.warehouse <;>
    cases hD : pyTruthyStr p.database <;>
      cases hS : pyTruthyStr p.schema <;>
        cases hR : pyTruthyStr p.role <;>
          simp only [hW, hD, hS, hR, Bool.false_eq_true, if_true, if_false,
            dictGet_strip_db_wh, dictGet_strip_sc_wh, dictGet_strip_ro_wh] <;>
          first
            | exact hbase
            | (rw [dictGet_append_same]
               rcases hpw : p.warehouse with _ | w
               · rw [hpw] at hW
                 simp [pyTruthyStr] at hW
               · rfl)

/-- What the built parameter dict holds under `"database"`. -/
theorem connection_params_database (p : ConnParams)
    (hx : ∀ kv ∈ p.extra_params, kv.1 ≠ "database") :
    dictGet (connection_params p) "database"
      = if pyTruthyStr p.database = true then p.database else none := by
  have hbase := dictGet_base_none p "database"
    (by decide) (by decide) (by decide) (by decide) hx
  unfold connection_params
  cases hW : pyTruthyStr p.warehouse <;>
    cases hD : pyTruthyStr p.database <;>
      cases hS : pyTruthyStr p.schema <;>
        cases hR : pyTruthyStr p.role <;>
          simp only [hW, hD, hS, hR, Bool.false_eq_true, if_true, if_false,
            dictGet_strip_wh_db, dictGet_strip_sc_db, dictGet_strip_ro_db] <;>
          first
            | exact hbase
            | (rw [dictGet_append_same]
               rcases hpd : p.database with _ | w
               · rw [hpd] at hD
                 simp [pyTruthyStr] at hD
               · rfl)

/-- What the built parameter dict holds under `"schema"`. -/
theorem connection_params_schema (p : ConnParams)
    (hx : ∀ kv ∈ p.extra_params, kv.1 ≠ "schema") :
    dictGet (connection_params p) "schema"
      = if pyTruthyStr p.schema = true then p.schema else none := by
  have hbase := dictGet_base_none p "schema"
    (by decide) (by decide) (by decide) (by decide) hx
  unfold connection_params
  cases hW : pyTruthyStr p.warehouse <;>
    cases hD : pyTruthyStr p.database <;>
      cases hS : pyTruthyStr p.schema <;>
        cases hR : pyTruthyStr p.role <;>
          simp only [hW, hD, hS, hR, Bool.false_eq_true, if_true, if_false,
            dictGet_strip_wh_sc, dictGet_strip_db_sc, dictGet_strip_ro_sc] <;>
          first
            | exact hbase
            | (rw [dictGet_append_same]
               rcases hps : p.schema with _ | w
               · rw [hps] at hS
                 simp [pyTruthyStr] at hS
               · rfl)

/-- What the built parameter dict holds under `"role"`. -/
theorem connection_params_role (p : ConnParams)
    (hx : ∀ kv ∈ p.extra_params, kv.1 ≠ "role") :
    dictGet (connection_params p) "role"
      = if pyTruthyStr p.role = true then p.role else none := by
  have hbase := dictGet_base_none p "role"
    (by decide) (by decide) (by decide) (by decide) hx
  unfold connection_params
  cases hW : pyTruthyStr p.warehouse <;>
    cases hD : pyTruthyStr p.database <;>
      cases hS : pyTruthyStr p.schema <;>
        cases hR : pyTruthyStr p.role <;>
          simp only [hW, hD, hS, hR, Bool.false_eq_true, if_true, if_false,
            dictGet_strip_wh_ro, dictGet_strip_db_ro, dictGet_strip_sc_ro] <;>
          first
            | exact hbase
            | (rw [dictGet_append_same]
               rcases hpr : p.role with _ | w
               · rw [hpr] at hR
                 simp [pyTruthyStr] at hR
               · rfl)

/-! ## C4, C5, C6, C8, C9, C10: connection lifecycle -/

/-- Fixed concrete parameters used by the witnesses. -/
def pConc : ConnParams :=
  { account := "acct", user := "alice", password := "pw",
    warehouse := some "WH", database := none, schema := none, role := none,
    authenticator := "snowflake", extra_params := [] }

/-- C4: every per-query facade entry point (query, query_batches,
query_dict, query_dict_batches, execute, fetch_one, fetch_all) fails
with the not-connected `ConnectionError` — the spec's
`NotConnectedError` — both on the initial module state (before any
`connect()`) and immediately after a module-level `disconnect()` from
any state. -/
theorem C4_entry_points_require_connect (st : ModuleState) (cur : Cursor)
    (cs : Option Nat) (k : Nat) :
    (module_query initialModuleState cur cs = Except.error PyError.NotConnectedError ∧
     module_query_batches initialModuleState cur k = Except.error PyError.NotConnectedError ∧
     module_query_dict initialModuleState cur cs = Except.error PyError.NotConnectedError ∧
     module_query_dict_batches initialModuleState cur k
        = Except.error PyError.NotConnectedError ∧
     module_execute initialModuleState cur = Except.error PyError.NotConnectedError ∧
     module_fetch_one initialModuleState cur = Except.error PyError.NotConnectedError ∧
     module_fetch_all initialModuleState cur = Except.error PyError.NotConnectedError) ∧
    (module_query (module_disconnect st) cur cs = Except.error PyError.NotConnectedError ∧
     module_query_batches (module_disconnect st) cur k
        = Except.error PyError.NotConnectedError ∧
     module_query_dict (module_disconnect st) cur cs
        = Except.error PyError.NotConnectedError ∧
     module_query_dict_batches (module_disconnect st) cur k
        = Except.error PyError.NotConnectedError ∧
     module_execute (module_disconnect st) cur = Except.error PyError.NotConnectedError ∧
     module_fetch_one (module_disconnect st) cur = Except.error PyError.NotConnectedError ∧
     module_fetch_all (module_disconnect st) cur = Except.error PyError.NotConnectedError) := by
  have hd : module_disconnect st = none := by cases st <;> rfl
  rw [hd]
  exact ⟨⟨rfl, rfl, rfl, rfl, rfl, rfl, rfl⟩, ⟨rfl, rfl, rfl, rfl, rfl, rfl, rfl⟩⟩

/-- C5: with a connected cached handle, `connect()` issues the liveness
probe; on probe success that very handle is returned with no driver
open, no state change and no log (no re-authentication); on probe
failure exactly one driver open is attempted, its parameter dict built
from the stored parameters, after the dead-connection warning. -/
theorem C5_probe_reuse_or_single_reopen (s : SnowflakeConnection) (d : Driver)
    (h : Nat) (hc : s._connection = some h) (hf : s._is_connected = true) :
    (d.probeOk = true →
      connect s d = { result := Except.ok h, state := s, openArgs := [], logs := [] }) ∧
    (d.probeOk = false →
      (connect s d).openArgs = [connection_params s.params] ∧
      (connect s d).logs.head? = some "Cached connection is dead, reconnecting...") := by
  obtain ⟨p, c, f⟩ := s
  dsimp only at hc hf
  subst hc hf
  constructor
  · intro hp
    simp [connect, hp]
  · intro hp
    rcases hor : d.openResult with e | nh <;>
      simp [connect, openPhase, hp, hor]

/-- Witness for C5: probe success on a concrete connected session
returns the cached handle with no driver open. -/
theorem C5_probe_reuse_or_single_reopen_witness :
    connect ⟨pConc, some 7, true⟩ ⟨true, Except.ok 8, Except.ok ()⟩ =
      { result := Except.ok 7, state := ⟨pConc, some 7, true⟩,
        openArgs := [], logs := [] } :=
  (C5_probe_reuse_or_single_reopen ⟨pConc, some 7, true⟩
    ⟨true, Except.ok 8, Except.ok ()⟩ 7 rfl rfl).1 rfl

/-- C6: `disconnect()` on a session with a handle never raises — the
close-time outcome only selects the log line — the handle and flag are
always cleared, a following `connect()` performs a full driver open
(re-authentication), and a second `disconnect()` in a row raises
nothing and does nothing. -/
theorem C6_disconnect_never_raises (s : SnowflakeConnection) (d d2 d3 : Driver)
    (h : Nat) (hc : s._connection = some h) :
    ((disconnect s d).1._connection = none ∧
     (disconnect s d).1._is_connected = false) ∧
    (disconnect s d).2 = [match d.closeResult with
        | Except.ok _ => "Disconnected from Snowflake"
        | Except.error e => "Error during disconnect: " ++ e] ∧
    (connect (disconnect s d).1 d2).openArgs.length = 1 ∧
    disconnect (disconnect s d).1 d3 = ((disconnect s d).1, []) := by
  obtain ⟨p, c, f⟩ := s
  dsimp only at hc
  subst hc
  rcases hcr : d.closeResult with e | u <;>
    rcases hor : d2.openResult with e2 | h2 <;>
      simp [disconnect, connect, openPhase, hcr, hor]

/-- Witness for C6: a failing driver close on a concrete session is
swallowed into a log line and the handle is cleared. -/
theorem C6_disconnect_never_raises_witness :
    (disconnect ⟨pConc, some 7, true⟩
        ⟨true, Except.ok 8, Except.error "boom"⟩).1._connection = none ∧
    (disconnect ⟨pConc, some 7, true⟩
        ⟨true, Except.ok 8, Except.error "boom"⟩).2
      = ["Error during disconnect: boom"] := by
  have h := C6_disconnect_never_raises ⟨pConc, some 7, true⟩
    ⟨true, Except.ok 8, Except.error "boom"⟩ ⟨true, Except.ok 8, Except.ok ()⟩
    ⟨true, Except.ok 8, Except.ok ()⟩ 7 rfl
  exact ⟨h.1.1, h.2.1⟩

/-- C8 as stated is refuted: a `warehouse` that is present on the
session (set to a value) but equal to the empty string is not sent to
the driver — the built parameter dict has no `"warehouse"` key although
the field is set. -/
theorem C8_counterexample :
    ({ account := "a", user := "u", password := "p",
       warehouse := some "", database := none, schema := none, role := none,
       authenticator := "snowflake", extra_params := [] : ConnParams }).warehouse ≠ none ∧
    dictGet (connection_params
      { account := "a", user := "u", password := "p",
        warehouse := some "", database := none, schema := none, role := none,
        authenticator := "snowflake", extra_params := [] }) "warehouse" = none := by
  exact ⟨by simp, by rfl⟩

/-- C8 (amended): each optional field among warehouse, database,
schema, role is included in the parameters sent to the driver iff it is
set to a non-empty string (Python truthiness); a field that is absent
or set to the empty string is not sent, leaving driver-side defaults,
and a sent field carries the stored value. -/
theorem C8_truthy_optional_fields_sent (p : ConnParams)
    (hw : ∀ kv ∈ p.extra_params, kv.1 ≠ "warehouse")
    (hd : ∀ kv ∈ p.extra_params, kv.1 ≠ "database")
    (hs : ∀ kv ∈ p.extra_params, kv.1 ≠ "schema")
    (hr : ∀ kv ∈ p.extra_params, kv.1 ≠ "role") :
    dictGet (connection_params p) "warehouse"
        = (if pyTruthyStr p.warehouse = true then p.warehouse else none) ∧
    dictGet (connection_params p) "database"
        = (if pyTruthyStr p.database = true then p.database else none) ∧
    dictGet (connection_params p) "schema"
        = (if pyTruthyStr p.schema = true then p.schema else none) ∧
    dictGet (connection_params p) "role"
        = (if pyTruthyStr p.role = true then p.role else none) :=
  ⟨connection_params_warehouse p hw, connection_params_database p hd,
   connection_params_schema p hs, connection_params_role p hr⟩

/-- Witness for C8 (amended): concrete parameters with a non-empty
warehouse and no role send the warehouse value and no role key. -/
theorem C8_truthy_optional_fields_sent_witness :
    dictGet (connection_params pConc) "warehouse" = some "WH" ∧
    dictGet (connection_params pConc) "role" = none := by
  have h := C8_truthy_optional_fields_sent pConc
    (by intro kv hkv; cases hkv) (by intro kv hkv; cases hkv)
    (by intro kv hkv; cases hkv) (by intro kv hkv; cases hkv)
  refine ⟨?_, ?_⟩
  · rw [h.1]
    rfl
  · rw [h.2.2.2]
    rfl

/-- C9: the log output of `connect()` and of `disconnect()` is
invariant under any change of the stored password, for identical driver
behaviour — the secret never flows into the log stream. -/
theorem C9_logs_independent_of_password (s : SnowflakeConnection) (d : Driver)
    (pw1 pw2 : String) :
    (connect (setPassword s pw1) d).logs = (connect (setPassword s pw2) d).logs ∧
    (disconnect (setPassword s pw1) d).2 = (disconnect (setPassword s pw2) d).2 := by
  obtain ⟨⟨a, u, pw, w, db, sc, ro, au, ex⟩, c, f⟩ := s
  constructor
  · cases c <;> cases f <;>
      cases hp : d.probeOk <;> rcases hor : d.openResult with e | nh <;>
        simp [connect, setPassword, openPhase, hp, hor]
  · cases c <;> rcases hcr : d.closeResult with e | u2 <;>
      simp [disconnect, setPassword, hcr]

/-- C10: a failed driver open inside `connect()` propagates the error
with handle and flag cleared (the session is observably disconnected),
and `__init__`, every `connect()` path and `disconnect()` preserve the
invariant that the connected flag is set only when a handle is
present. -/
theorem C10_connect_failure_clears (p : ConnParams) (s : SnowflakeConnection)
    (d : Driver) (e : String) (hinv : connInv s) :
    connInv (initConnection p) ∧
    (d.openResult = Except.error e → (connect s d).openArgs ≠ [] →
      (connect s d).result = Except.error e ∧
      (connect s d).state._connection = none ∧
      (connect s d).state._is_connected = false) ∧
    connInv (connect s d).state ∧
    connInv (disconnect s d).1 := by
  obtain ⟨q, c, f⟩ := s
  refine ⟨?_, ?_, ?_, ?_⟩
  · intro hflag
    simp [initConnection] at hflag
  · intro hor hne
    cases c <;> cases f <;> cases hp : d.probeOk <;>
      simp_all [connect, openPhase, connInv]
  · cases c <;> cases f <;> cases hp : d.probeOk <;>
      rcases hor : d.openResult with e2 | h2 <;>
        simp_all [connect, openPhase, connInv]
  · cases c <;> rcases hcr : d.closeResult with e2 | u2 <;>
      simp_all [disconnect, connInv]

/-- Witness for C10: a concrete fresh session whose driver open fails
ends disconnected with the error propagated. -/
theorem C10_connect_failure_clears_witness :
    (connect (initConnection pConc)
        ⟨false, Except.error "boom", Except.ok ()⟩).result = Except.error "boom" ∧
    (connect (initConnection pConc)
        ⟨false, Except.error "boom", Except.ok ()⟩).state._connection = none := by
  have h := C10_connect_failure_clears pConc (initConnection pConc)
    ⟨false, Except.error "boom", Except.ok ()⟩ "boom"
    (by intro hflag; simp [initConnection] at hflag)
  have h2 := h.2.1 rfl (by simp [connect, openPhase, initConnection])
  exact ⟨h2.1, h2.2.1⟩

end SnowflakeCon
